import Mathlib

/-!
Verification of the booking-validity, pricing and payment logic of the
alx_travel_app repository, shallowly embedded in Lean 4.

Conventions of the embedding:
* Dates are modelled as integers (day numbers); Python's
  `(end_date - start_date).days` becomes plain integer subtraction.
* Django `DecimalField` amounts are modelled as exact rationals (`Rat`).
* Django querysets over stored rows are modelled as `List`s of records;
  `filter(...)`/`exclude(...)` become `List.filter`, `.exists()` becomes
  `List.any`, `objects.get(...)` becomes `List.find?`.
* The two spellings `cancelled` / `canceled` that the repository uses for
  the same logical status are unified into the single constructor
  `BookingStatus.cancelled`.
* `serializers.ValidationError` / HTTP error responses become constructors
  of explicit error inductives, carried in `Except` or in a response sum.
-/

namespace AlxTravel

/-- Booking status, from `Booking.STATUS_CHOICES` in
`listings/models.py` (pending / confirmed / cancelled / completed). -/
inductive BookingStatus where
  | pending
  | confirmed
  | cancelled
  | completed
deriving DecidableEq, Repr

/-- A listing row, with the fields the booking serializer reads:
`id`, `availability` (`is_available`), `price_per_night`, `max_guests`. -/
structure Listing where
  id : Nat
  price_per_night : Rat
  max_guests : Nat
  availability : Bool
  host : Nat
deriving DecidableEq, Repr

/-- A stored booking row as seen by `BookingSerializer.validate`:
listing reference, half-open stay interval and status. -/
structure BookingRec where
  id : Nat
  listing_id : Nat
  start_date : Int
  end_date : Int
  status : BookingStatus
deriving DecidableEq, Repr

/-- Errors raised by the booking serializer's validators
(`serializers.ValidationError` with the corresponding message). -/
inductive BookingError where
  | PastStartDate
  | PastEndDate
  | InvalidDateRange
  | RangeTooLong
  | InvalidListing
  | ListingUnavailable
  | DateConflict
deriving DecidableEq, Repr

/-- `status__in=['confirmed', 'pending']` filter of the conflict queryset. -/
def isActive : BookingStatus → Bool
  | .pending => true
  | .confirmed => true
  | _ => false

/-- The conflict predicate of `BookingSerializer.validate`:
same listing, active status, and the half-open overlap test
`start_date__lt=end_date, end_date__gt=start_date`. -/
def conflictsWith (listing_id : Nat) (start_date end_date : Int)
    (b : BookingRec) : Bool :=
  b.listing_id == listing_id && isActive b.status &&
    decide (b.start_date < end_date) && decide (b.end_date > start_date)

/-- `BookingSerializer.validate_start_date` in `listings/serializers.py`:
rejects a start date strictly before today's date. -/
def validate_start_date (today value : Int) : Except BookingError Int :=
  if value < today then .error .PastStartDate else .ok value

/-- `BookingSerializer.validate_end_date` in `listings/serializers.py`:
rejects an end date strictly before today's date. -/
def validate_end_date (today value : Int) : Except BookingError Int :=
  if value < today then .error .PastEndDate else .ok value

/-- `BookingSerializer.validate` in `listings/serializers.py`, with both
dates and the listing id present (the create / full-update path).
`inst` is `some i` when updating stored booking `i` (the serializer's
`self.instance`), `none` on create. Checks, in source order: date ordering,
365-day cap, listing existence, availability, and the date-conflict scan
excluding the updated booking. -/
def bookingValidate (listings : List Listing) (bookings : List BookingRec)
    (start_date end_date : Int) (listing_id : Nat) (inst : Option Nat) :
    Except BookingError Unit :=
  if start_date ≥ end_date then .error .InvalidDateRange
  else if end_date - start_date > 365 then .error .RangeTooLong
  else
    match listings.find? (fun l => l.id == listing_id) with
    | none => .error .InvalidListing
    | some listing =>
      if !listing.availability then .error .ListingUnavailable
      else
        let pool :=
          match inst with
          | some i => bookings.filter (fun (b : BookingRec) => b.id != i)
          | none => bookings
        if pool.any (conflictsWith listing_id start_date end_date) then
          .error .DateConflict
        else .ok ()

/-- A stored booking row with its derived price, as manipulated by
`BookingSerializer.create` / `BookingSerializer.update`. -/
structure StoredBooking where
  id : Nat
  listing_id : Nat
  start_date : Int
  end_date : Int
  status : BookingStatus
  total_price : Rat
deriving DecidableEq, Repr

/-- Modelled from the spec: `Booking.calculate_total_price`, called by the
serializer, lives in `listings/models.py` which is not under `src/`; the
spec states `total_price = price_per_night × (end_date − start_date in
whole nights)` with `nights = (end − start).days`. -/
def calculate_total_price (price_per_night : Rat) (start_date end_date : Int) :
    Rat :=
  price_per_night * ((end_date - start_date : Int) : Rat)

/-- `BookingSerializer.create`: persist the booking, then set
`total_price` by `calculate_total_price`. -/
def bookingCreate (price_per_night : Rat) (id listing_id : Nat)
    (start_date end_date : Int) : StoredBooking :=
  { id := id, listing_id := listing_id, start_date := start_date,
    end_date := end_date, status := .pending,
    total_price := calculate_total_price price_per_night start_date end_date }

/-- `BookingSerializer.update`: write the new dates, and recalculate
`total_price` only when a date changed. -/
def bookingUpdate (price_per_night : Rat) (b : StoredBooking)
    (start_date end_date : Int) : StoredBooking :=
  let updated := { b with start_date := start_date, end_date := end_date }
  if start_date != b.start_date || end_date != b.end_date then
    { updated with
      total_price := calculate_total_price price_per_night start_date end_date }
  else updated

/-- The transition table of
`BookingStatusUpdateSerializer.validate_status`:
`{'pending': ['confirmed', 'canceled'], 'confirmed': ['canceled'],
'canceled': []}`, read with `.get(current_status, [])`, so `completed`
(absent from the dict) also maps to the empty list. -/
def valid_transitions : BookingStatus → List BookingStatus
  | .pending => [.confirmed, .cancelled]
  | .confirmed => [.cancelled]
  | .cancelled => []
  | .completed => []

/-- The `ChoiceField` of `BookingStatusUpdateSerializer`: only
pending / confirmed / canceled are acceptable requested values. -/
def status_choices : List BookingStatus :=
  [.pending, .confirmed, .cancelled]

/-- Error responses of the status-update and confirm / cancel endpoints. -/
inductive TransitionError where
  | InvalidChoice
  | IllegalTransition
  | Forbidden
deriving DecidableEq, Repr

/-- `BookingStatusUpdateSerializer` run against a bound instance: the
`ChoiceField` screens the requested value, then `validate_status` rejects
any requested edge missing from `valid_transitions`. -/
def validate_status (current value : BookingStatus) :
    Except TransitionError BookingStatus :=
  if value ∉ status_choices then .error .InvalidChoice
  else if value ∉ valid_transitions current then .error .IllegalTransition
  else .ok value

/-- `BookingViewSet.confirm` in
`alx_travel_app/listings/views.py`: after checking that the requester is
the listing's host, sets the status to `confirmed` unconditionally. -/
def viewConfirm (requester host : Nat) (b : StoredBooking) :
    Except TransitionError StoredBooking :=
  if host ≠ requester then .error .Forbidden
  else .ok { b with status := .confirmed }

/-- `BookingViewSet.cancel` in
`alx_travel_app/listings/views.py`: after checking that the requester is
the guest or the host, sets the status to `cancelled` unconditionally. -/
def viewCancel (requester guest host : Nat) (b : StoredBooking) :
    Except TransitionError StoredBooking :=
  if guest ≠ requester ∧ host ≠ requester then .error .Forbidden
  else .ok { b with status := .cancelled }

/-- `Booking.clean` in `alx_travel_app/listings/models.py`: raises on
check-in not strictly before check-out, then on a guest count above the
listing's `max_guests`. -/
inductive CleanError where
  | InvalidDateRange
  | CapacityExceeded
deriving DecidableEq, Repr

/-- `Booking.clean`: date-order check first, then the capacity check. -/
def bookingClean (check_in_date check_out_date : Int)
    (number_of_guests max_guests : Nat) : Except CleanError Unit :=
  if check_in_date ≥ check_out_date then .error .InvalidDateRange
  else if number_of_guests > max_guests then .error .CapacityExceeded
  else .ok ()

/-- `Booking.duration_nights` in `alx_travel_app/listings/models.py`. -/
def duration_nights (check_in_date check_out_date : Int) : Int :=
  check_out_date - check_in_date

/-- Payment status, from the `status` strings the payment views write. -/
inductive PayStatus where
  | pending
  | completed
  | failed
deriving DecidableEq, Repr

/-- A payment row as read and written by the payment views:
booking reference, amount, `transaction_id` and status. -/
structure Payment where
  booking_id : Nat
  amount : Rat
  transaction_id : String
  status : PayStatus
deriving DecidableEq, Repr

/-- A booking row as looked up by `InitiatePaymentView.post`
(`Booking.objects.get(id=booking_id, user=request.user)`). -/
structure BookingRow where
  id : Nat
  user : Nat
  total_price : Rat
deriving DecidableEq, Repr

/-- Outcome of one call of the external payment gateway: the HTTP call
failed (non-200), or it returned 200 with a settlement verdict
(`data['status'] == 'success'` or anything else). -/
inductive GatewayCall where
  | callFailed
  | ok (settled : Bool)
deriving DecidableEq, Repr

/-- The response body of `InitiatePaymentView.post`. -/
inductive InitiateResponse where
  | checkout
  | alreadyInitiated
  | gatewayError
  | bookingNotFound
deriving DecidableEq, Repr

/-- `InitiatePaymentView.post`: look the booking up by `(id, user)`;
refuse if a payment already exists for it; call the gateway; on a 200
response persist `Payment{pending, tx_ref, amount = total_price}`, on a
non-200 response persist nothing. Returns the new payment table and the
response. -/
def initiatePayment (bookings : List BookingRow) (payments : List Payment)
    (booking_id requester : Nat) (tx_ref : String) (gateway : GatewayCall) :
    List Payment × InitiateResponse :=
  match bookings.find? (fun b => b.id == booking_id && b.user == requester) with
  | none => (payments, .bookingNotFound)
  | some booking =>
    if payments.any (fun p => p.booking_id == booking.id) then
      (payments, .alreadyInitiated)
    else
      match gateway with
      | .ok _ =>
        (payments ++ [{ booking_id := booking.id, amount := booking.total_price,
                        transaction_id := tx_ref, status := .pending }],
         .checkout)
      | .callFailed => (payments, .gatewayError)

/-- The response body of `VerifyPaymentView.get`. -/
inductive VerifyResponse where
  | completed
  | failed
  | gatewayError
  | paymentNotFound
deriving DecidableEq, Repr

/-- `VerifyPaymentView.get`: look the payment up by `transaction_id`;
on gateway 200 with `status == 'success'` write `completed` and enqueue
one booking-confirmation task (`send_booking_confirmation.delay`); on 200
with any other verdict write `failed`; on a failed gateway call change
nothing. Returns the new payment table, the response, and the list of
booking ids for which a confirmation notification was enqueued. -/
def verifyPayment (payments : List Payment) (tx_ref : String)
    (gateway : GatewayCall) : List Payment × VerifyResponse × List Nat :=
  match payments.find? (fun p => p.transaction_id == tx_ref) with
  | none => (payments, .paymentNotFound, [])
  | some payment =>
    match gateway with
    | .callFailed => (payments, .gatewayError, [])
    | .ok true =>
      (payments.map (fun p =>
        if p.transaction_id == tx_ref then { p with status := .completed } else p),
       .completed, [payment.booking_id])
    | .ok false =>
      (payments.map (fun p =>
        if p.transaction_id == tx_ref then { p with status := .failed } else p),
       .failed, [])

/-- The invariant of the spec's data model: at most one `Payment` row per
booking. -/
def atMostOnePaymentPer (payments : List Payment) : Prop :=
  ∀ bid : Nat, payments.countP (fun p => p.booking_id == bid) ≤ 1

/-- Concrete example listing: id 1, 100.00 per night, 4 guests,
available, host 9. -/
def exListing : Listing :=
  { id := 1, price_per_night := 100, max_guests := 4, availability := true,
    host := 9 }

/-- Concrete example stored booking: id 7 on listing 1, stay [0, 10),
confirmed. -/
def exBooking : BookingRec :=
  { id := 7, listing_id := 1, start_date := 0, end_date := 10,
    status := .confirmed }

/-- Concrete example booking row with a price, dates [0, 3). -/
def exStored : StoredBooking :=
  { id := 1, listing_id := 1, start_date := 0, end_date := 3,
    status := .pending, total_price := 300 }

/-- Concrete cancelled booking row, for exercising the confirm action. -/
def exCancelled : StoredBooking :=
  { id := 1, listing_id := 1, start_date := 0, end_date := 2,
    status := .cancelled, total_price := 200 }

/-- Concrete booking row of user 1 as the payment views read it. -/
def exBRow : BookingRow :=
  { id := 1, user := 1, total_price := 100 }

/-- Concrete booking row of user 2, for the cross-user lookup. -/
def exOtherBRow : BookingRow :=
  { id := 5, user := 2, total_price := 100 }

/-- Concrete pending payment on booking 1, reference `tx1`. -/
def exPayment : Payment :=
  { booking_id := 1, amount := 100, transaction_id := "tx1",
    status := .pending }

/-- Concrete payment already in the `failed` leaf state. -/
def exFailedPayment : Payment :=
  { booking_id := 1, amount := 100, transaction_id := "txf",
    status := .failed }

/-- Once the date-order, length, listing-existence and availability checks
pass, `bookingValidate` is decided by the conflict scan over the pool that
excludes the updated booking. -/
theorem bookingValidate_scan_eq (listings : List Listing)
    (bookings : List BookingRec) (s e : Int) (lid : Nat) (inst : Option Nat)
    (l : Listing) (hse : s < e) (hlen : e - s ≤ 365)
    (hfind : listings.find? (fun l' => l'.id == lid) = some l)
    (havail : l.availability = true) :
    bookingValidate listings bookings s e lid inst =
      if (match inst with
          | some i => bookings.filter (fun (b : BookingRec) => b.id != i)
          | none => bookings).any (conflictsWith lid s e) then
        .error .DateConflict
      else .ok () := by
  unfold bookingValidate
  rw [if_neg (show ¬ s ≥ e by omega), if_neg (show ¬ e - s > 365 by omega),
    hfind]
  simp [havail]

/-- Claim C1: on a create or full-update validation whose earlier checks
pass, an existing active booking on the same listing meeting the half-open
overlap test `existing.start < e ∧ existing.end > s` — and not excluded as
the updated booking itself — makes validation fail with `DateConflict`;
and on update, when every conflicting booking is the updated booking
itself, validation succeeds, so a booking can be moved onto dates that
overlap only itself. -/
theorem C1_dateConflict :
    (∀ (listings : List Listing) (bookings : List BookingRec) (s e : Int)
       (lid : Nat) (inst : Option Nat) (l : Listing) (b : BookingRec),
       s < e → e - s ≤ 365 →
       listings.find? (fun l' => l'.id == lid) = some l →
       l.availability = true →
       b ∈ bookings → conflictsWith lid s e b = true →
       (∀ i, inst = some i → b.id ≠ i) →
       bookingValidate listings bookings s e lid inst =
         .error .DateConflict) ∧
    (∀ (listings : List Listing) (bookings : List BookingRec) (s e : Int)
       (lid i : Nat) (l : Listing),
       s < e → e - s ≤ 365 →
       listings.find? (fun l' => l'.id == lid) = some l →
       l.availability = true →
       (∀ b ∈ bookings, conflictsWith lid s e b = true → b.id = i) →
       bookingValidate listings bookings s e lid (some i) = .ok ()) := by
  constructor
  · intro listings bookings s e lid inst l b hse hlen hfind havail hmem hconf
      hexcl
    rw [bookingValidate_scan_eq listings bookings s e lid inst l hse hlen
      hfind havail]
    have hb : b ∈ (match inst with
        | some i => bookings.filter (fun (b : BookingRec) => b.id != i)
        | none => bookings) := by
      cases inst with
      | none => exact hmem
      | some i =>
        refine List.mem_filter.mpr ⟨hmem, ?_⟩
        simpa using hexcl i rfl
    rw [if_pos (List.any_eq_true.mpr ⟨b, hb, hconf⟩)]
  · intro listings bookings s e lid i l hse hlen hfind havail hself
    rw [bookingValidate_scan_eq listings bookings s e lid (some i) l hse hlen
      hfind havail]
    have hfalse : ((bookings.filter (fun (b : BookingRec) => b.id != i)).any
        (conflictsWith lid s e)) = false := by
      rw [List.any_eq_false]
      intro b hb hc
      have h1 := List.mem_filter.mp hb
      have h2 : b.id ≠ i := by simpa using h1.2
      exact h2 (hself b h1.1 hc)
    simp [hfalse]

/-- Claim C1 witness: with listing 1 (available) and confirmed booking 7
on [0, 10), a create request for [3, 5) fails with `DateConflict`, while
updating booking 7 itself to [3, 5) succeeds. -/
theorem C1_dateConflict_witness :
    bookingValidate [exListing] [exBooking] 3 5 1 none =
      .error .DateConflict ∧
    bookingValidate [exListing] [exBooking] 3 5 1 (some 7) = .ok () := by
  constructor
  · exact C1_dateConflict.1 [exListing] [exBooking] 3 5 1 none exListing
      exBooking (by decide) (by decide) rfl rfl (by simp) (by decide)
      (fun i h => by cases h)
  · exact C1_dateConflict.2 [exListing] [exBooking] 3 5 1 7 exListing
      (by decide) (by decide) rfl rfl (by decide)

/-- Claim C2: the price the serializer stores on create is
`price_per_night × duration_nights`, and an update that changes either
date recomputes `total_price` the same way. -/
theorem C2_totalPrice :
    (∀ (price : Rat) (id lid : Nat) (s e : Int),
       (bookingCreate price id lid s e).total_price =
         price * ((duration_nights s e : Int) : Rat)) ∧
    (∀ (price : Rat) (b : StoredBooking) (s e : Int),
       s ≠ b.start_date ∨ e ≠ b.end_date →
       (bookingUpdate price b s e).total_price =
         price * ((duration_nights s e : Int) : Rat)) := by
  constructor
  · intro price id lid s e
    rfl
  · intro price b s e h
    unfold bookingUpdate
    have hc : (s != b.start_date || e != b.end_date) = true := by
      simp only [Bool.or_eq_true, bne_iff_ne]
      exact h
    rw [if_pos hc]
    rfl

/-- Claim C2 witness: creating a booking on [0, 3) at 100 per night stores
`100 × 3`, and moving a stored booking to [2, 5) restores
`100 × duration_nights 2 5`. -/
theorem C2_totalPrice_witness :
    (bookingCreate 100 1 1 0 3).total_price =
      100 * ((duration_nights 0 3 : Int) : Rat) ∧
    (bookingUpdate 100 exStored 2 5).total_price =
      100 * ((duration_nights 2 5 : Int) : Rat) :=
  ⟨C2_totalPrice.1 100 1 1 0 3,
   C2_totalPrice.2 100 exStored 2 5 (Or.inl (by decide))⟩

/-- Claim C3 counterexample: the `confirm` view action, called by the host
(user 1) on an already-cancelled booking, succeeds and sets the status to
`confirmed` — the requested edge cancelled→confirmed does not fail. -/
theorem C3_counterexample :
    viewConfirm 1 1 exCancelled =
      .ok { exCancelled with status := .confirmed } ∧
    exCancelled.status = .cancelled := by
  exact ⟨rfl, rfl⟩

/-- Claim C3 as amended: the status-update serializer enforces exactly the
edges pending→confirmed, pending→cancelled, confirmed→cancelled (cancelled
and completed have no outgoing edges, any other requested edge fails), but
the confirm and cancel view actions check only authorization and set the
status unconditionally, so through them any current status — cancelled
included — can be overwritten. -/
theorem C3_transitions :
    (∀ current value : BookingStatus,
       validate_status current value = .ok value ↔
         value ∈ valid_transitions current) ∧
    (∀ current value : BookingStatus,
       validate_status current value = .error .IllegalTransition ↔
         (value ∈ status_choices ∧ value ∉ valid_transitions current)) ∧
    (∀ (u : Nat) (b : StoredBooking),
       viewConfirm u u b = .ok { b with status := .confirmed }) ∧
    (∀ (u host : Nat) (b : StoredBooking),
       viewCancel u u host b = .ok { b with status := .cancelled }) := by
  refine ⟨?_, ?_, ?_, ?_⟩
  · intro current value
    cases current <;> cases value <;>
      simp [validate_status, valid_transitions, status_choices]
  · intro current value
    cases current <;> cases value <;>
      simp [validate_status, valid_transitions, status_choices]
  · intro u b
    unfold viewConfirm
    rw [if_neg (by simp)]
  · intro u host b
    unfold viewCancel
    rw [if_neg (by simp)]

/-- Claim C4 counterexample: a payment already in the `failed` leaf state,
re-verified with the gateway now reporting success, is overwritten to
`completed` — verify does change a leaf status again. -/
theorem C4_counterexample :
    (verifyPayment [exFailedPayment] "txf" (.ok true)).1.map Payment.status
      = [.completed] ∧
    exFailedPayment.status = .failed := by
  exact ⟨rfl, rfl⟩

/-- Claim C4 as amended: `verify` writes the stored status from the
gateway verdict regardless of the payment's current status — success
writes `completed` and failure writes `failed` even on a payment already
in a leaf state; the stored status is left as it was only when the gateway
call itself fails (or the verdict matches the stored leaf). -/
theorem C4_verifyOverwrites :
    ∀ (p : Payment),
      (verifyPayment [p] p.transaction_id (.ok true)).1 =
        [{ p with status := .completed }] ∧
      (verifyPayment [p] p.transaction_id (.ok false)).1 =
        [{ p with status := .failed }] ∧
      (verifyPayment [p] p.transaction_id .callFailed).1 = [p] := by
  intro p
  refine ⟨?_, ?_, ?_⟩ <;> simp [verifyPayment, List.find?]

/-- Claim C5: when the gateway call fails, nothing persisted changes:
`initiate` leaves the payment table untouched (and reports `GatewayError`
once the booking is found and has no payment yet), and `verify` leaves
every payment's status as it was (and reports `GatewayError` once the
payment is found), so the caller may retry. -/
theorem C5_gatewayFailureNoChange :
    (∀ (bookings : List BookingRow) (payments : List Payment)
       (bid u : Nat) (tx : String),
       (initiatePayment bookings payments bid u tx .callFailed).1 =
         payments) ∧
    (∀ (bookings : List BookingRow) (payments : List Payment)
       (bid u : Nat) (tx : String) (b : BookingRow),
       bookings.find? (fun b' => b'.id == bid && b'.user == u) = some b →
       (∀ p ∈ payments, p.booking_id ≠ b.id) →
       initiatePayment bookings payments bid u tx .callFailed =
         (payments, .gatewayError)) ∧
    (∀ (payments : List Payment) (tx : String),
       (verifyPayment payments tx .callFailed).1 = payments) ∧
    (∀ (payments : List Payment) (tx : String) (p : Payment),
       payments.find? (fun p' => p'.transaction_id == tx) = some p →
       verifyPayment payments tx .callFailed =
         (payments, .gatewayError, [])) := by
  refine ⟨?_, ?_, ?_, ?_⟩
  · intro bookings payments bid u tx
    unfold initiatePayment
    cases hfind : bookings.find? (fun b => b.id == bid && b.user == u) with
    | none => rfl
    | some b =>
      by_cases hany : payments.any (fun p => p.booking_id == b.id) = true
      · simp [hany]
      · simp [hany]
  · intro bookings payments bid u tx b hfind hnone
    unfold initiatePayment
    rw [hfind]
    have hany : payments.any (fun p => p.booking_id == b.id) = false := by
      rw [List.any_eq_false]
      intro p hp
      simpa using hnone p hp
    simp [hany]
  · intro payments tx
    unfold verifyPayment
    cases hfind : payments.find? (fun p => p.transaction_id == tx) with
    | none => rfl
    | some p => rfl
  · intro payments tx p hfind
    unfold verifyPayment
    rw [hfind]

/-- Claim C5 witness: a failed gateway call on initiate for booking 1 of
user 1 (no payment yet) returns `GatewayError` with the empty payment
table unchanged, and a failed gateway call on verify of `tx1` returns
`GatewayError` leaving the pending payment as it was. -/
theorem C5_gatewayFailureNoChange_witness :
    initiatePayment [exBRow] [] 1 1 "tx" .callFailed =
      ([], .gatewayError) ∧
    verifyPayment [exPayment] "tx1" .callFailed =
      ([exPayment], .gatewayError, []) := by
  constructor
  · exact C5_gatewayFailureNoChange.2.1 [exBRow] [] 1 1 "tx" exBRow rfl
      (by simp)
  · exact C5_gatewayFailureNoChange.2.2.2 [exPayment] "tx1" exPayment rfl

/-- Claim C6: `initiate` refuses with `PaymentAlreadyInitiated` (creating
nothing) whenever some payment for the looked-up booking already exists,
and consequently it preserves the at-most-one-payment-per-booking
invariant on every run. -/
theorem C6_onePaymentPerBooking :
    (∀ (bookings : List BookingRow) (payments : List Payment)
       (bid u : Nat) (tx : String) (gw : GatewayCall) (b : BookingRow)
       (p : Payment),
       bookings.find? (fun b' => b'.id == bid && b'.user == u) = some b →
       p ∈ payments → p.booking_id = b.id →
       initiatePayment bookings payments bid u tx gw =
         (payments, .alreadyInitiated)) ∧
    (∀ (bookings : List BookingRow) (payments : List Payment)
       (bid u : Nat) (tx : String) (gw : GatewayCall),
       atMostOnePaymentPer payments →
       atMostOnePaymentPer
         (initiatePayment bookings payments bid u tx gw).1) := by
  constructor
  · intro bookings payments bid u tx gw b p hfind hmem hbid
    unfold initiatePayment
    rw [hfind]
    have hany : payments.any (fun q => q.booking_id == b.id) = true :=
      List.any_eq_true.mpr ⟨p, hmem, by simp [hbid]⟩
    simp [hany]
  · intro bookings payments bid u tx gw hinv
    unfold initiatePayment
    cases hfind : bookings.find? (fun b => b.id == bid && b.user == u) with
    | none => exact hinv
    | some b =>
      by_cases hany : payments.any (fun p => p.booking_id == b.id) = true
      · simpa [hany] using hinv
      · cases gw with
        | callFailed => simpa [hany] using hinv
        | ok settled =>
          simp only [hany, if_false, Bool.false_eq_true]
          intro bid'
          rw [List.countP_append, List.countP_singleton]
          by_cases hb : b.id = bid'
          · have h0 : payments.countP (fun p => p.booking_id == bid') = 0 := by
              rw [List.countP_eq_zero]
              intro p hp
              have h2 : ¬ (p.booking_id == b.id) = true := fun hpb =>
                hany (List.any_eq_true.mpr ⟨p, hp, hpb⟩)
              simp only [beq_iff_eq] at h2 ⊢
              omega
            rw [h0]
            split <;> simp
          · rw [if_neg (by simp [hb])]
            simpa using hinv bid'

/-- Claim C6 witness: with the pending payment on booking 1 present, a
second initiate for booking 1 fails with `PaymentAlreadyInitiated` and
changes nothing; and a first initiate from the empty table leaves at most
one payment for booking 1. -/
theorem C6_onePaymentPerBooking_witness :
    initiatePayment [exBRow] [exPayment] 1 1 "tx2" (.ok true) =
      ([exPayment], .alreadyInitiated) ∧
    (initiatePayment [exBRow] [] 1 1 "tx2" (.ok true)).1.countP
      (fun p => p.booking_id == 1) ≤ 1 := by
  constructor
  · exact C6_onePaymentPerBooking.1 [exBRow] [exPayment] 1 1 "tx2"
      (.ok true) exBRow exPayment rfl (by simp) rfl
  · exact C6_onePaymentPerBooking.2 [exBRow] [] 1 1 "tx2" (.ok true)
      (fun bid => by simp) 1

/-- Claim C7: `verify` on a transaction reference matching no payment
reports `PaymentNotFound` and changes nothing; on a matching payment with
a gateway-reported success it answers `completed`, enqueues exactly one
booking-confirmation notification, and every stored payment carrying that
reference ends with status `completed`. -/
theorem C7_verifySuccess :
    (∀ (payments : List Payment) (tx : String) (gw : GatewayCall),
       (∀ p ∈ payments, p.transaction_id ≠ tx) →
       verifyPayment payments tx gw = (payments, .paymentNotFound, [])) ∧
    (∀ (payments : List Payment) (tx : String) (p : Payment),
       payments.find? (fun p' => p'.transaction_id == tx) = some p →
       (verifyPayment payments tx (.ok true)).2.1 = .completed ∧
       (verifyPayment payments tx (.ok true)).2.2.length = 1 ∧
       (∀ q ∈ (verifyPayment payments tx (.ok true)).1,
          q.transaction_id = tx → q.status = .completed)) := by
  constructor
  · intro payments tx gw hnone
    unfold verifyPayment
    have hfind : payments.find? (fun p => p.transaction_id == tx) = none := by
      rw [List.find?_eq_none]
      intro p hp
      simpa using hnone p hp
    rw [hfind]
  · intro payments tx p hfind
    refine ⟨by simp [verifyPayment, hfind], by simp [verifyPayment, hfind],
      ?_⟩
    intro q hq hqtx
    simp only [verifyPayment, hfind] at hq
    rcases List.mem_map.mp hq with ⟨r, hr, hrq⟩
    by_cases hc : r.transaction_id = tx
    · rw [if_pos (by simpa using hc)] at hrq
      rw [← hrq]
    · rw [if_neg (by simpa using hc)] at hrq
      exact absurd (hrq ▸ hqtx) hc

/-- Claim C7 witness: verify of `x` against the empty table answers
`PaymentNotFound`; verify of `tx1` with gateway success answers
`completed` with exactly one enqueued notification. -/
theorem C7_verifySuccess_witness :
    verifyPayment [] "x" (.ok true) = ([], .paymentNotFound, []) ∧
    (verifyPayment [exPayment] "tx1" (.ok true)).2.1 = .completed ∧
    (verifyPayment [exPayment] "tx1" (.ok true)).2.2.length = 1 := by
  refine ⟨C7_verifySuccess.1 [] "x" (.ok true) (by simp), ?_, ?_⟩
  · exact (C7_verifySuccess.2 [exPayment] "tx1" exPayment rfl).1
  · exact (C7_verifySuccess.2 [exPayment] "tx1" exPayment rfl).2.1

/-- Claim C8: with the dates in order, `Booking.clean` fails with
`CapacityExceeded` exactly when the guest count exceeds the listing's
`max_guests`; and with the guest count within capacity it never fails for
that reason. -/
theorem C8_capacity :
    (∀ (check_in check_out : Int) (guests maxg : Nat),
       check_in < check_out →
       (bookingClean check_in check_out guests maxg =
          .error .CapacityExceeded ↔ guests > maxg)) ∧
    (∀ (check_in check_out : Int) (guests maxg : Nat),
       guests ≤ maxg →
       bookingClean check_in check_out guests maxg ≠
         .error .CapacityExceeded) := by
  constructor
  · intro ci co guests maxg hlt
    unfold bookingClean
    rw [if_neg (show ¬ ci ≥ co by omega)]
    by_cases hg : guests > maxg
    · simp [hg]
    · simp [hg]
  · intro ci co guests maxg hle
    unfold bookingClean
    by_cases hd : ci ≥ co
    · simp [hd]
    · rw [if_neg hd, if_neg (show ¬ guests > maxg by omega)]
      simp

/-- Claim C8 witness: 6 guests against capacity 4 fails with
`CapacityExceeded` (spec's example), and 2 guests against capacity 4 does
not fail for that reason. -/
theorem C8_capacity_witness :
    bookingClean 0 3 6 4 = .error .CapacityExceeded ∧
    bookingClean 0 3 2 4 ≠ .error .CapacityExceeded :=
  ⟨(C8_capacity.1 0 3 6 4 (by decide)).mpr (by decide),
   C8_capacity.2 0 3 2 4 (by decide)⟩

/-- Claim C9: the serializer's per-field date validators reject a start or
end date exactly when it lies strictly before the current date, and accept
it otherwise. -/
theorem C9_noPastDates :
    ∀ (today v : Int),
      (validate_start_date today v = .error .PastStartDate ↔ v < today) ∧
      (validate_end_date today v = .error .PastEndDate ↔ v < today) ∧
      (validate_start_date today v = .ok v ↔ today ≤ v) ∧
      (validate_end_date today v = .ok v ↔ today ≤ v) := by
  intro today v
  unfold validate_start_date validate_end_date
  by_cases h : v < today <;> simp [h] <;> omega

/-- Claim C10: the initiate-payment lookup filters on
`(id = booking_id, user = requester)` together, so whenever no stored
booking matches both — in particular when the booking exists but belongs
to another user — the request is answered with the not-found response,
indistinguishable from a nonexistent booking. -/
theorem C10_crossUserNotFound :
    ∀ (bookings : List BookingRow) (payments : List Payment)
      (bid u : Nat) (tx : String) (gw : GatewayCall),
      (∀ b ∈ bookings, b.id = bid → b.user ≠ u) →
      initiatePayment bookings payments bid u tx gw =
        (payments, .bookingNotFound) := by
  intro bookings payments bid u tx gw h
  unfold initiatePayment
  have hfind : bookings.find? (fun b => b.id == bid && b.user == u) =
      none := by
    rw [List.find?_eq_none]
    intro b hb
    simp only [Bool.and_eq_true, beq_iff_eq, not_and]
    exact fun h1 => h b hb h1
  rw [hfind]

/-- Claim C10 witness: booking 5 exists but belongs to user 2; user 1's
initiate request for it is answered with the not-found response. -/
theorem C10_crossUserNotFound_witness :
    initiatePayment [exOtherBRow] [] 5 1 "tx" (.ok true) =
      ([], .bookingNotFound) :=
  C10_crossUserNotFound [exOtherBRow] [] 5 1 "tx" (.ok true) (by decide)

end AlxTravel
